import Mathlib

/-!
Verification development for the rural amenity gap analyzer (src/try.py).

The Python program is shallowly embedded below:
coordinates and areas are exact rationals (the program uses Python floats;
spec section 8 allows floating-point tolerance), tabular data is a list of
records, and the fallible parts (pandas KeyError on a missing column, the
unbound local variable in analyze_amenities) are Option/Except values.
The third-party geodesic distance is a parameter of the coverage
computation; a haversine instance, sanctioned by spec section 4.4, is
defined further below for concrete evaluations.
-/

/-- A raw coordinate cell as seen by clean_coordinate: a missing value
(None/NaN, for which pd.isna is true), an already numeric value, or text. -/
inductive CoordInput where
  | nan : CoordInput
  | num : ℚ → CoordInput
  | str : String → CoordInput
deriving DecidableEq

/-- Model of Python str.replace on character lists: scan left to right,
replacing each non-overlapping occurrence of pat by repl.  The fuel
argument is a structural-recursion bound; every step consumes at least one
character, so fuel = length of the input reproduces str.replace exactly. -/
def replaceAux (pat repl : List Char) : ℕ → List Char → List Char
  | _, [] => []
  | 0, l => l
  | fuel + 1, c :: rest =>
    if pat ≠ [] ∧ pat.isPrefixOf (c :: rest) then
      repl ++ replaceAux pat repl fuel (List.drop pat.length (c :: rest))
    else
      c :: replaceAux pat repl fuel rest

/-- Python s.replace(pat, repl) (on the character list of s). -/
def pyReplace (s pat repl : List Char) : List Char :=
  replaceAux pat repl s.length s

/-- Python s.strip(): drop whitespace from both ends. -/
def pyStrip (s : List Char) : List Char :=
  ((s.dropWhile Char.isWhitespace).reverse.dropWhile Char.isWhitespace).reverse

/-- Value of a digit string, most significant first. -/
def digitsToNat (l : List Char) : ℕ :=
  l.foldl (fun a c => 10 * a + (c.toNat - 48)) 0

/-- Model of Python float(s) on plain decimal notation: optional sign,
integer digits, optional fraction after a single dot; anything else fails
(exponents, inf and nan are outside the formats this dataset uses). -/
def parseFloat (l : List Char) : Option ℚ :=
  let stripped := pyStrip l
  let signAndRest : Bool × List Char :=
    match stripped with
    | '-' :: t => (true, t)
    | '+' :: t => (false, t)
    | _ => (false, stripped)
  let ip := signAndRest.2.takeWhile Char.isDigit
  let r1 := signAndRest.2.dropWhile Char.isDigit
  let mag : Option ℚ :=
    match r1 with
    | [] => if ip.isEmpty then none else some (digitsToNat ip)
    | '.' :: fr =>
      let fp := fr.takeWhile Char.isDigit
      let r2 := fr.dropWhile Char.isDigit
      if r2.isEmpty then
        if ip.isEmpty ∧ fp.isEmpty then none
        else some ((digitsToNat ip : ℚ) + (digitsToNat fp : ℚ) / (10 : ℚ) ^ fp.length)
      else none
    | _ => none
  match mag with
  | none => none
  | some v => some (if signAndRest.1 then -v else v)

/-- clean_coordinate from src/try.py.  The stripped markup substrings are
the literal character sequences appearing in the source file, which stores
the degree markup in mojibake form (bytes C2 AC E2 88 9E, the two
characters "¬∞"), not the plain degree sign. -/
def clean_coordinate : CoordInput → Option ℚ
  | CoordInput.nan => none
  | CoordInput.num q => some q
  | CoordInput.str s =>
    let l1 := pyStrip (pyReplace (pyReplace (pyReplace s.toList "¬∞N".toList []) "¬∞E".toList []) "¬∞".toList [])
    let l2 := if l1.contains ' ' then l1.takeWhile (fun ch => !ch.isWhitespace) else l1
    parseFloat l2

/-- One entry of GOVERNMENT_STANDARDS. -/
structure StandardEntry where
  ratio : ℚ
  unit : String
  service_radius_km : ℚ
  area_standard : Option ℚ
  icon : String
  color : String
deriving DecidableEq

/-- GOVERNMENT_STANDARDS from src/try.py; lookup of an unregistered kind
yields none (the Python dict .get default is the empty dict). -/
def GOVERNMENT_STANDARDS (facility_type : String) : Option StandardEntry :=
  if facility_type = "schools" then
    some { ratio := 107 / 100000, unit := "per person", service_radius_km := 5,
           area_standard := none, icon := "book", color := "blue" }
  else if facility_type = "hospitals" then
    some { ratio := 184 / 10000000, unit := "per person", service_radius_km := 20,
           area_standard := none, icon := "plus-circle", color := "red" }
  else if facility_type = "police_stations" then
    some { ratio := 111 / 10000000, unit := "per person", service_radius_km := 15,
           area_standard := none, icon := "shield-alt", color := "darkblue" }
  else if facility_type = "parks" then
    some { ratio := 1 / 10000, unit := "per 1000 people", service_radius_km := 2,
           area_standard := some 10, icon := "tree", color := "green" }
  else if facility_type = "pharmacies" then
    some { ratio := 606 / 1000000, unit := "per person", service_radius_km := 3,
           area_standard := none, icon := "pills", color := "lightred" }
  else none

/-- standard.get("ratio", 0) after GOVERNMENT_STANDARDS.get(facility_type, dict()). -/
def ratioOf (facility_type : String) : ℚ :=
  match GOVERNMENT_STANDARDS facility_type with
  | some s => s.ratio
  | none => 0

/-- standard.get("service_radius_km", 5.0). -/
def serviceRadiusOf (facility_type : String) : ℚ :=
  match GOVERNMENT_STANDARDS facility_type with
  | some s => s.service_radius_km
  | none => 5

/-- standard.get("area_standard", 0). -/
def areaStandardOf (facility_type : String) : ℚ :=
  match GOVERNMENT_STANDARDS facility_type with
  | some s => ( s.area_standard).getD 0
  | none => 0

/-- calculate_requirements from src/try.py. -/
def calculate_requirements (population : ℕ) (facility_type : String) : ℤ :=
  Int.ceil ((population : ℚ) * ratioOf facility_type)

/-- A cleaned facility record (one row surviving standardize_facility_data).
The name column is presentation-only and never read by the analyzer. -/
structure Facility where
  latitude : ℚ
  longitude : ℚ
  area_sqm : Option ℚ
deriving DecidableEq

/-- The cleaned dataframe handed to analyze_amenities: its rows plus
whether an area_sqm column exists. -/
structure CleanTable where
  rows : List Facility
  hasAreaColumn : Bool
deriving DecidableEq

/-- One uploaded row: the raw cell values under the (renamed) latitude,
longitude and area columns. -/
structure RawRow where
  latRaw : CoordInput
  lonRaw : CoordInput
  areaRaw : Option ℚ
deriving DecidableEq

/-- The uploaded dataframe: its column headers and its rows. -/
structure UploadedTable where
  headers : List String
  rows : List RawRow
deriving DecidableEq

/-- The column_map renaming applied in standardize_facility_data:
recognized header synonyms map to canonical names, others are untouched. -/
def renameColumn (h : String) : String :=
  if h = "Name" ∨ h = "Name of Facility" ∨ h = "Name of Police Station" ∨ h = "Name of facility" then "name"
  else if h = "Latitude" ∨ h = "Location_latitude" then "latitude"
  else if h = "Longitude" ∨ h = "Location_longitude" then "longitude"
  else if h = "Area (in square meters)" then "area_sqm"
  else h

/-- Cleaning of one row: both coordinates must normalize, else the row is
dropped (the dropna call on the latitude and longitude columns). -/
def cleanRow (r : RawRow) : Option Facility :=
  match clean_coordinate r.latRaw, clean_coordinate r.lonRaw with
  | some la, some lo => some { latitude := la, longitude := lo, area_sqm := r.areaRaw }
  | _, _ => none

/-- standardize_facility_data from src/try.py.  Applying clean_coordinate
to a column that does not exist after renaming raises a pandas KeyError in
the Python code; that failure is the Except.error case here. -/
def standardize_facility_data (df : UploadedTable) (facility_type : String) : Except String CleanTable :=
  let hdrs := df.headers.map renameColumn
  if "latitude" ∉ hdrs then Except.error "KeyError: latitude"
  else if "longitude" ∉ hdrs then Except.error "KeyError: longitude"
  else Except.ok { rows := df.rows.filterMap cleanRow, hasAreaColumn := hdrs.contains "area_sqm" }

/-- Modelled from the spec: the program computes distances with the
third-party geopy geodesic routine, whose code is not part of this
repository.  Spec section 4.4 requires a spherical or ellipsoidal
great-circle formula and names haversine as an acceptable choice; this is
the haversine distance in kilometers on a sphere of radius 6371 km.
Coverage below is parameterized over an arbitrary distance function, and
this instance is used for concrete evaluations. -/
noncomputable def haversineKm (p q : ℚ × ℚ) : ℝ :=
  let lat1 := (p.1 : ℝ) * Real.pi / 180
  let lat2 := (q.1 : ℝ) * Real.pi / 180
  let dlat := ((q.1 : ℝ) - (p.1 : ℝ)) * Real.pi / 180
  let dlon := ((q.2 : ℝ) - (p.2 : ℝ)) * Real.pi / 180
  2 * 6371 * Real.arcsin (Real.sqrt
    (Real.sin (dlat / 2) ^ 2 + Real.cos lat1 * Real.cos lat2 * Real.sin (dlon / 2) ^ 2))

open Classical in
/-- The loop body of calculate_service_coverage: how many facilities lie
within radius_km of the center point, for a given distance function. -/
noncomputable def coveredCount (dist : ℚ × ℚ → ℚ × ℚ → ℝ) (center_point : ℚ × ℚ)
    (radius_km : ℚ) : List Facility → ℕ
  | [] => 0
  | f :: rest =>
    (if dist center_point ( f.latitude, f.longitude) ≤ (radius_km : ℝ) then 1 else 0) +
      coveredCount dist center_point radius_km rest

/-- calculate_service_coverage from src/try.py, with the geodesic distance
as a parameter. -/
noncomputable def calculate_service_coverage (dist : ℚ × ℚ → ℚ × ℚ → ℝ)
    (facilities : List Facility) (center_point : ℚ × ℚ) (radius_km : ℚ) : ℚ :=
  if facilities.length = 0 then 0
  else ((coveredCount dist center_point radius_km facilities : ℚ) / (facilities.length : ℚ)) * 100

/-- The centroid used by analyze_amenities: mean latitude and mean
longitude of the facility rows. -/
def centroid (rows : List Facility) : ℚ × ℚ :=
  ((rows.map (fun f => f.latitude)).sum / (rows.length : ℚ),
   (rows.map (fun f => f.longitude)).sum / (rows.length : ℚ))

/-- facilities['area_sqm'].sum(): pandas skips missing values, so a
missing area counts as 0. -/
def sumAreas (rows : List Facility) : ℚ :=
  (rows.map (fun f => ( f.area_sqm).getD 0)).sum

/-- The dictionary returned by analyze_amenities. -/
structure AnalysisResult where
  actual : ℕ
  required : ℤ
  gap : ℤ
  sufficient : Bool
  coverage_pct : ℚ
  area_gap : ℚ
  total_area : Option ℚ
  required_area : Option ℚ

/-- analyze_amenities from src/try.py.  The locals total_area and
required_area are assigned only when facility_type is "parks" and the
dataframe has an area_sqm column (modelled by areaVars); building the
result dictionary reads total_area whenever facility_type is "parks", so
for parks without an area column the Python function raises
UnboundLocalError instead of returning — the none case here. -/
noncomputable def analyze_amenities (dist : ℚ × ℚ → ℚ × ℚ → ℝ) (population : ℕ)
    (facilities : CleanTable) (facility_type : String) : Option AnalysisResult :=
  let actual_count := facilities.rows.length
  let required_count := calculate_requirements population facility_type
  let gap : ℤ := max 0 (required_count - (actual_count : ℤ))
  let coverage_pct : ℚ :=
    if 0 < actual_count then
      calculate_service_coverage dist facilities.rows (centroid facilities.rows)
        (serviceRadiusOf facility_type)
    else 0
  let areaVars : Option (ℚ × ℚ) :=
    if facility_type = "parks" ∧ facilities.hasAreaColumn = true then
      some (sumAreas facilities.rows, (population : ℚ) * areaStandardOf facility_type)
    else none
  let area_gap : ℚ :=
    match areaVars with
    | some tr => max 0 (tr.2 - tr.1)
    | none => 0
  if facility_type = "parks" then
    match areaVars with
    | none => none
    | some tr =>
      some { actual := actual_count, required := required_count, gap := gap,
             sufficient := decide (required_count ≤ (actual_count : ℤ)),
             coverage_pct := coverage_pct, area_gap := area_gap,
             total_area := some tr.1, required_area := some tr.2 }
  else
    some { actual := actual_count, required := required_count, gap := gap,
           sufficient := decide (required_count ≤ (actual_count : ℤ)),
           coverage_pct := coverage_pct, area_gap := area_gap,
           total_area := none, required_area := none }

/-- Outcome of one analysis run as orchestrated by main: a user-visible
error (the try/except around the run), a user-visible warning (zero rows
survive cleaning), or a computed AnalysisResult. -/
inductive RunResult where
  | errorMsg (msg : String) : RunResult
  | warningMsg (msg : String) : RunResult
  | success (result : AnalysisResult) : RunResult

/-- The analysis path of main from src/try.py for one uploaded file:
standardize, abort with a warning when no rows survive, else analyze.
Exceptions (the missing-column KeyError, the parks UnboundLocalError) are
caught by the surrounding except block, which renders
"Error processing data: " followed by the exception text. -/
noncomputable def run (dist : ℚ × ℚ → ℚ × ℚ → ℝ) (population : ℕ)
    (df : UploadedTable) (facility_type : String) : RunResult :=
  match standardize_facility_data df facility_type with
  | Except.error e => RunResult.errorMsg ("Error processing data: " ++ e)
  | Except.ok facilities =>
    if facilities.rows.length = 0 then
      RunResult.warningMsg "No valid facility locations found in the uploaded file."
    else
      match analyze_amenities dist population facilities facility_type with
      | none => RunResult.errorMsg
          ("Error processing data: " ++ "local variable 'total_area' referenced before assignment")
      | some a => RunResult.success a

/-! Helper lemmas about the embedded program. -/

lemma coveredCount_le (dist : ℚ × ℚ → ℚ × ℚ → ℝ) (c : ℚ × ℚ) (radius : ℚ)
    (rows : List Facility) : coveredCount dist c radius rows ≤ rows.length := by
  induction rows with
  | nil => simp [coveredCount]
  | cons f rest ih =>
    simp only [coveredCount, List.length_cons]
    split <;> omega

lemma coveredCount_all (dist : ℚ × ℚ → ℚ × ℚ → ℝ) (c : ℚ × ℚ) (radius : ℚ)
    (rows : List Facility)
    (h : ∀ f ∈ rows, dist c ( f.latitude, f.longitude) ≤ (radius : ℝ)) :
    coveredCount dist c radius rows = rows.length := by
  induction rows with
  | nil => simp [coveredCount]
  | cons f rest ih =>
    have h1 := h f (by simp)
    simp only [coveredCount, List.length_cons, if_pos h1,
      ih (fun g hg => h g (List.mem_cons_of_mem f hg))]
    omega

lemma csc_nonneg (dist : ℚ × ℚ → ℚ × ℚ → ℝ) (rows : List Facility) (c : ℚ × ℚ)
    (radius : ℚ) : 0 ≤ calculate_service_coverage dist rows c radius := by
  unfold calculate_service_coverage
  split
  · exact le_refl 0
  · positivity

lemma csc_le_100 (dist : ℚ × ℚ → ℚ × ℚ → ℝ) (rows : List Facility) (c : ℚ × ℚ)
    (radius : ℚ) : calculate_service_coverage dist rows c radius ≤ 100 := by
  unfold calculate_service_coverage
  split
  · norm_num
  · rename_i hlen
    have h2 : (0 : ℚ) < (rows.length : ℚ) := by
      exact_mod_cast Nat.pos_of_ne_zero hlen
    have h1 : ((coveredCount dist c radius rows : ℕ) : ℚ) ≤ (rows.length : ℚ) := by
      exact_mod_cast coveredCount_le dist c radius rows
    calc ((coveredCount dist c radius rows : ℕ) : ℚ) / (rows.length : ℚ) * 100
        ≤ 1 * 100 := by
          apply mul_le_mul_of_nonneg_right _ (by norm_num)
          exact div_le_one_of_le₀ h1 h2.le
      _ = 100 := one_mul 100

lemma csc_all_100 (dist : ℚ × ℚ → ℚ × ℚ → ℝ) (rows : List Facility) (c : ℚ × ℚ)
    (radius : ℚ) (hne : rows ≠ [])
    (hall : ∀ f ∈ rows, dist c ( f.latitude, f.longitude) ≤ (radius : ℝ)) :
    calculate_service_coverage dist rows c radius = 100 := by
  unfold calculate_service_coverage
  have hlen : rows.length ≠ 0 := by simp [List.length_eq_zero, hne]
  have hq : ((rows.length : ℕ) : ℚ) ≠ 0 := by exact_mod_cast hlen
  rw [if_neg hlen, coveredCount_all dist c radius rows hall, div_self hq]
  norm_num

lemma analyze_nonparks (dist : ℚ × ℚ → ℚ × ℚ → ℝ) (population : ℕ) (T : CleanTable)
    (facility_type : String) (hft : facility_type ≠ "parks") :
    analyze_amenities dist population T facility_type =
      some { actual := T.rows.length,
             required := calculate_requirements population facility_type,
             gap := max 0 (calculate_requirements population facility_type - (T.rows.length : ℤ)),
             sufficient := decide (calculate_requirements population facility_type ≤ (T.rows.length : ℤ)),
             coverage_pct :=
               if 0 < T.rows.length then
                 calculate_service_coverage dist T.rows (centroid T.rows)
                   (serviceRadiusOf facility_type)
               else 0,
             area_gap := 0, total_area := none, required_area := none } := by
  unfold analyze_amenities
  simp [hft]

lemma analyze_parks_with_area (dist : ℚ × ℚ → ℚ × ℚ → ℝ) (population : ℕ) (T : CleanTable)
    (hA : T.hasAreaColumn = true) :
    analyze_amenities dist population T "parks" =
      some { actual := T.rows.length,
             required := calculate_requirements population "parks",
             gap := max 0 (calculate_requirements population "parks" - (T.rows.length : ℤ)),
             sufficient := decide (calculate_requirements population "parks" ≤ (T.rows.length : ℤ)),
             coverage_pct :=
               if 0 < T.rows.length then
                 calculate_service_coverage dist T.rows (centroid T.rows) (serviceRadiusOf "parks")
               else 0,
             area_gap := max 0 ((population : ℚ) * areaStandardOf "parks" - sumAreas T.rows),
             total_area := some (sumAreas T.rows),
             required_area := some ((population : ℚ) * areaStandardOf "parks") } := by
  unfold analyze_amenities
  simp [hA]

lemma analyze_parks_no_area (dist : ℚ × ℚ → ℚ × ℚ → ℝ) (population : ℕ) (T : CleanTable)
    (hA : T.hasAreaColumn = false) :
    analyze_amenities dist population T "parks" = none := by
  unfold analyze_amenities
  simp [hA]

lemma analyze_some_fields (dist : ℚ × ℚ → ℚ × ℚ → ℝ) (population : ℕ) (T : CleanTable)
    (facility_type : String) (r : AnalysisResult)
    (h : analyze_amenities dist population T facility_type = some r) :
    r.actual = T.rows.length ∧
    r.required = calculate_requirements population facility_type ∧
    r.gap = max 0 (calculate_requirements population facility_type - (T.rows.length : ℤ)) ∧
    r.sufficient = decide (calculate_requirements population facility_type ≤ (T.rows.length : ℤ)) ∧
    r.coverage_pct =
      (if 0 < T.rows.length then
        calculate_service_coverage dist T.rows (centroid T.rows) (serviceRadiusOf facility_type)
       else 0) := by
  by_cases hft : facility_type = "parks"
  · subst hft
    cases hA : T.hasAreaColumn with
    | false =>
      rw [analyze_parks_no_area dist population T hA] at h
      exact absurd h (by simp)
    | true =>
      rw [analyze_parks_with_area dist population T hA] at h
      obtain rfl := Option.some.inj h
      simp
  · rw [analyze_nonparks dist population T facility_type hft] at h
    obtain rfl := Option.some.inj h
    simp

lemma haversineKm_equator (b c : ℚ) :
    haversineKm (0, b) (0, c) =
      2 * 6371 * Real.arcsin (Real.sqrt (Real.sin ((((c : ℝ) - (b : ℝ)) * Real.pi / 180) / 2) ^ 2)) := by
  unfold haversineKm
  push_cast
  norm_num

lemma pi720_mem : -(Real.pi / 2) ≤ Real.pi / 720 ∧ Real.pi / 720 ≤ Real.pi / 2 ∧
    (0 : ℝ) ≤ Real.pi / 720 ∧ Real.pi / 720 ≤ Real.pi := by
  have hp := Real.pi_pos
  constructor
  · linarith
  · exact ⟨by linarith, by linarith, by linarith⟩

lemma arcsin_sqrt_sin_sq_pi720 :
    Real.arcsin (Real.sqrt (Real.sin (Real.pi / 720) ^ 2)) = Real.pi / 720 := by
  obtain ⟨h1, h2, h3, h4⟩ := pi720_mem
  rw [Real.sqrt_sq (Real.sin_nonneg_of_nonneg_of_le_pi h3 h4), Real.arcsin_sin h1 h2]

lemma haversineKm_half_left :
    haversineKm ((0 : ℚ), (1/2 : ℚ)) (0, 0) = 6371 * Real.pi / 360 := by
  rw [haversineKm_equator]
  have h1 : (((0 : ℚ) : ℝ) - ((1/2 : ℚ) : ℝ)) * Real.pi / 180 / 2 = -(Real.pi / 720) := by
    push_cast
    ring
  rw [h1, Real.sin_neg, neg_sq, arcsin_sqrt_sin_sq_pi720]
  ring

lemma haversineKm_half_right :
    haversineKm ((0 : ℚ), (1/2 : ℚ)) (0, 1) = 6371 * Real.pi / 360 := by
  rw [haversineKm_equator]
  have h1 : (((1 : ℚ) : ℝ) - ((1/2 : ℚ) : ℝ)) * Real.pi / 180 / 2 = Real.pi / 720 := by
    push_cast
    ring
  rw [h1, arcsin_sqrt_sin_sq_pi720]
  ring

lemma haversine_not_le_5 : ¬ (6371 * Real.pi / 360 ≤ ((5 : ℚ) : ℝ)) := by
  push_cast
  intro hcontra
  nlinarith [Real.pi_gt_three]

/-- A trivial distance function (all distances zero) used to instantiate
theorems at concrete inputs. -/
noncomputable def dist0 : ℚ × ℚ → ℚ × ℚ → ℝ := fun _ _ => 0

/-! Fixtures: concrete inputs used by witnesses and counterexamples. -/

def T2 : CleanTable := { rows := [{ latitude := 1, longitude := 2, area_sqm := none }], hasAreaColumn := false }

def r2val : AnalysisResult :=
  { actual := 1, required := 1, gap := 0, sufficient := true, coverage_pct := 100,
    area_gap := 0, total_area := none, required_area := none }

def T4 : CleanTable :=
  { rows := [{ latitude := 0, longitude := 0, area_sqm := none },
             { latitude := 0, longitude := 1, area_sqm := none }], hasAreaColumn := false }

def T6 : CleanTable :=
  { rows := [{ latitude := 10, longitude := 76, area_sqm := none },
             { latitude := 10, longitude := 77, area_sqm := none },
             { latitude := 11, longitude := 76, area_sqm := none },
             { latitude := 11, longitude := 77, area_sqm := none },
             { latitude := 12, longitude := 76, area_sqm := none }], hasAreaColumn := false }

def T7 : CleanTable :=
  { rows := [{ latitude := 0, longitude := 0, area_sqm := some 5000 },
             { latitude := 0, longitude := 1, area_sqm := none },
             { latitude := 1, longitude := 1, area_sqm := some 3000 }], hasAreaColumn := true }

def T8 : CleanTable := { rows := [], hasAreaColumn := false }

def r8val : AnalysisResult :=
  { actual := 0, required := 1, gap := 1, sufficient := false, coverage_pct := 0,
    area_gap := 0, total_area := none, required_area := none }

/-! Claim theorems. -/

/-- C2: for every population, facility kind and facility list, the analyzer
returns gapCount = max(0, requiredCount - actualCount), which is
nonnegative, and isSufficient holds exactly when gapCount = 0. -/
theorem C2_gap_sufficient (dist : ℚ × ℚ → ℚ × ℚ → ℝ) (population : ℕ) (T : CleanTable)
    (facility_type : String) (r : AnalysisResult)
    (h : analyze_amenities dist population T facility_type = some r) :
    r.gap = max 0 ( r.required - ( r.actual : ℤ)) ∧ 0 ≤ r.gap ∧
    ( r.sufficient = true ↔ r.gap = 0) := by
  obtain ⟨ha, hreq, hgap, hsuf, -⟩ := analyze_some_fields dist population T facility_type r h
  refine ⟨by rw [hgap, hreq, ha], by rw [hgap]; exact le_max_left 0 _, ?_⟩
  rw [hsuf, hgap]
  simp only [decide_eq_true_eq]
  omega

lemma analyze_T8 : analyze_amenities dist0 100 T8 "hospitals" = some r8val := by
  have hreq : calculate_requirements 100 "hospitals" = 1 := by
    rw [calculate_requirements, show ratioOf "hospitals" = 184 / 10000000 from rfl]
    norm_num [Int.ceil_eq_iff]
  rw [analyze_nonparks dist0 100 T8 "hospitals" (by decide)]
  simp [T8, r8val, hreq]

/-- Witness for C2: the concrete run with population 100, kind hospitals
and an empty facility list. -/
theorem C2_witness :
    AnalysisResult.gap r8val = max 0 (AnalysisResult.required r8val - (AnalysisResult.actual r8val : ℤ)) ∧
    0 ≤ AnalysisResult.gap r8val ∧
    (AnalysisResult.sufficient r8val = true ↔ AnalysisResult.gap r8val = 0) :=
  C2_gap_sufficient dist0 100 T8 "hospitals" r8val analyze_T8

/-- C3: for a facility kind of positive ratio and positive population, the
required count is the ceiling of population times ratio, and it is
monotone non-decreasing in the population. -/
theorem C3_requirements_monotone (facility_type : String) (p q : ℕ)
    (hr : 0 < ratioOf facility_type) (hp : 0 < p) (hpq : p ≤ q) :
    calculate_requirements p facility_type = Int.ceil ((p : ℚ) * ratioOf facility_type) ∧
    calculate_requirements p facility_type ≤ calculate_requirements q facility_type := by
  refine ⟨rfl, ?_⟩
  unfold calculate_requirements
  exact Int.ceil_mono (mul_le_mul_of_nonneg_right (by exact_mod_cast hpq) hr.le)

/-- Witness for C3 at kind schools with populations 1 and 2. -/
theorem C3_witness :
    calculate_requirements 1 "schools" = Int.ceil ((1 : ℚ) * ratioOf "schools") ∧
    calculate_requirements 1 "schools" ≤ calculate_requirements 2 "schools" :=
  C3_requirements_monotone "schools" 1 2
    (by rw [show ratioOf "schools" = 107 / 100000 from rfl]; norm_num)
    (by norm_num) (by norm_num)

/-- C4: population 10000, kind schools, five valid facility rows give
requiredCount 11, gapCount 6 and isSufficient false. -/
theorem C4_round_trip (dist : ℚ × ℚ → ℚ × ℚ → ℝ) (T : CleanTable)
    (h5 : T.rows.length = 5) :
    ∃ r, analyze_amenities dist 10000 T "schools" = some r ∧
      r.required = 11 ∧ r.gap = 6 ∧ r.sufficient = false := by
  have hreq : calculate_requirements 10000 "schools" = 11 := by
    rw [calculate_requirements, show ratioOf "schools" = 107 / 100000 from rfl]
    norm_num [Int.ceil_eq_iff]
  refine ⟨_, analyze_nonparks dist 10000 T "schools" (by decide), ?_, ?_, ?_⟩
  · simp [hreq]
  · simp only [hreq, h5]
    norm_num
  · simp only [hreq, h5]
    norm_num

/-- Witness for C4 on a concrete table of five facilities. -/
theorem C4_witness :
    ∃ r, analyze_amenities dist0 10000 T6 "schools" = some r ∧
      r.required = 11 ∧ r.gap = 6 ∧ r.sufficient = false :=
  C4_round_trip dist0 T6 rfl

/-- C5: for kind parks with an area column, totalAreaSqm sums the area
values (missing as 0), requiredAreaSqm = population * areaPerPersonSqm
(10 for parks), areaGapSqm = max(0, required - total); with population
1000 and total area 8000 this gives requiredAreaSqm 10000 and
areaGapSqm 2000. -/
theorem C5_area_gap (dist : ℚ × ℚ → ℚ × ℚ → ℝ) (population : ℕ) (T : CleanTable)
    (hA : T.hasAreaColumn = true) :
    ∃ r, analyze_amenities dist population T "parks" = some r ∧
      r.total_area = some (sumAreas T.rows) ∧
      r.required_area = some ((population : ℚ) * 10) ∧
      r.area_gap = max 0 ((population : ℚ) * 10 - sumAreas T.rows) ∧
      (population = 1000 → sumAreas T.rows = 8000 →
        r.required_area = some 10000 ∧ r.area_gap = 2000) := by
  have hstd : areaStandardOf "parks" = 10 := rfl
  refine ⟨_, analyze_parks_with_area dist population T hA, by simp, by simp [hstd],
    by simp [hstd], ?_⟩
  rintro rfl hsum
  constructor
  · simp only [hstd]
    norm_num
  · simp only [hstd, hsum]
    rw [show ((1000 : ℕ) : ℚ) * 10 - 8000 = 2000 by norm_num, max_eq_right (by norm_num)]

/-- Witness for C5 on a concrete parks table with areas 5000, missing
and 3000. -/
theorem C5_witness :
    ∃ r, analyze_amenities dist0 1000 T7 "parks" = some r ∧
      r.total_area = some (sumAreas T7.rows) ∧
      r.required_area = some (((1000 : ℕ) : ℚ) * 10) ∧
      r.area_gap = max 0 (((1000 : ℕ) : ℚ) * 10 - sumAreas T7.rows) ∧
      ((1000 : ℕ) = 1000 → sumAreas T7.rows = 8000 →
        r.required_area = some 10000 ∧ r.area_gap = 2000) :=
  C5_area_gap dist0 1000 T7 rfl

/-- C8: an unregistered facility kind yields an absent standards entry,
ratio 0, requiredCount 0, and the analyzer still succeeds with
isSufficient true for every facility list. -/
theorem C8_unknown_kind (dist : ℚ × ℚ → ℚ × ℚ → ℝ) (population : ℕ) (T : CleanTable)
    (facility_type : String)
    (hft : facility_type ∉ ["schools", "hospitals", "police_stations", "parks", "pharmacies"]) :
    GOVERNMENT_STANDARDS facility_type = none ∧
    ratioOf facility_type = 0 ∧
    calculate_requirements population facility_type = 0 ∧
    ∃ r, analyze_amenities dist population T facility_type = some r ∧
      r.required = 0 ∧ r.gap = 0 ∧ r.sufficient = true := by
  simp only [List.mem_cons, List.not_mem_nil, or_false, not_or] at hft
  obtain ⟨h1, h2, h3, h4, h5⟩ := hft
  have hG : GOVERNMENT_STANDARDS facility_type = none := by
    unfold GOVERNMENT_STANDARDS
    rw [if_neg h1, if_neg h2, if_neg h3, if_neg h4, if_neg h5]
  have hr0 : ratioOf facility_type = 0 := by
    unfold ratioOf
    rw [hG]
  have hreq : calculate_requirements population facility_type = 0 := by
    unfold calculate_requirements
    rw [hr0, mul_zero, Int.ceil_zero]
  refine ⟨hG, hr0, hreq, _, analyze_nonparks dist population T facility_type h4, by simp [hreq],
    ?_, ?_⟩
  · simp only [hreq]
    omega
  · simp only [hreq, decide_eq_true_eq]
    positivity

/-- Witness for C8 at the unregistered kind "libraries". -/
theorem C8_witness :
    GOVERNMENT_STANDARDS "libraries" = none ∧
    ratioOf "libraries" = 0 ∧
    calculate_requirements 7 "libraries" = 0 ∧
    ∃ r, analyze_amenities dist0 7 T6 "libraries" = some r ∧
      r.required = 0 ∧ r.gap = 0 ∧ r.sufficient = true :=
  C8_unknown_kind dist0 7 T6 "libraries" (by decide)

/-- C10: for kind parks, the analyzer yields no result when the facilities
carry no area column (the Python code raises UnboundLocalError reading
total_area), and yields a result when they do. -/
theorem C10_parks_no_area_result (dist : ℚ × ℚ → ℚ × ℚ → ℝ) (population : ℕ)
    (rows : List Facility) :
    analyze_amenities dist population { rows := rows, hasAreaColumn := false } "parks" = none ∧
    ∃ r, analyze_amenities dist population { rows := rows, hasAreaColumn := true } "parks" = some r :=
  ⟨analyze_parks_no_area dist population _ rfl,
   ⟨_, analyze_parks_with_area dist population _ rfl⟩⟩

/-- C1 (amended): the coverage percentage of every analysis run is in
[0,100]; it is 0 whenever the facility count is 0 (though it can also be 0
with facilities present, when none lies within the service radius of the
centroid); and it is 100 when facilities are present and every facility is
within the service radius of the centroid. -/
theorem C1_coverage_amended (dist : ℚ × ℚ → ℚ × ℚ → ℝ) (population : ℕ) (T : CleanTable)
    (facility_type : String) (r : AnalysisResult)
    (h : analyze_amenities dist population T facility_type = some r) :
    (0 ≤ r.coverage_pct ∧ r.coverage_pct ≤ 100) ∧
    (T.rows.length = 0 → r.coverage_pct = 0) ∧
    (T.rows ≠ [] →
      (∀ f ∈ T.rows, dist (centroid T.rows) ( f.latitude, f.longitude) ≤
        ((serviceRadiusOf facility_type : ℚ) : ℝ)) →
      r.coverage_pct = 100) := by
  obtain ⟨-, -, -, -, hcov⟩ := analyze_some_fields dist population T facility_type r h
  refine ⟨?_, ?_, ?_⟩
  · rw [hcov]
    by_cases hl : 0 < T.rows.length
    · rw [if_pos hl]
      exact ⟨csc_nonneg _ _ _ _, csc_le_100 _ _ _ _⟩
    · rw [if_neg hl]
      norm_num
  · intro h0
    rw [hcov, if_neg (by omega)]
  · intro hne hall
    rw [hcov, if_pos (List.length_pos.mpr hne)]
    exact csc_all_100 dist T.rows (centroid T.rows) (serviceRadiusOf facility_type) hne hall

lemma analyze_T2 : analyze_amenities dist0 10 T2 "pharmacies" = some r2val := by
  have hreq : calculate_requirements 10 "pharmacies" = 1 := by
    rw [calculate_requirements, show ratioOf "pharmacies" = 606 / 1000000 from rfl]
    norm_num [Int.ceil_eq_iff]
  have hcsc : calculate_service_coverage dist0 T2.rows (centroid T2.rows)
      (serviceRadiusOf "pharmacies") = 100 := by
    apply csc_all_100
    · simp [T2]
    · intro f hf
      rw [show serviceRadiusOf "pharmacies" = 3 from rfl]
      show (0 : ℝ) ≤ ((3 : ℚ) : ℝ)
      norm_num
  rw [analyze_nonparks dist0 10 T2 "pharmacies" (by decide)]
  simp [r2val, hreq, hcsc, show T2.rows.length = 1 from rfl]

/-- Witness for C1 at a concrete run with one pharmacy facility. -/
theorem C1_witness :
    (0 ≤ AnalysisResult.coverage_pct r2val ∧ AnalysisResult.coverage_pct r2val ≤ 100) ∧
    (T2.rows.length = 0 → AnalysisResult.coverage_pct r2val = 0) ∧
    (T2.rows ≠ [] →
      (∀ f ∈ T2.rows, dist0 (centroid T2.rows) ( f.latitude, f.longitude) ≤
        ((serviceRadiusOf "pharmacies" : ℚ) : ℝ)) →
      AnalysisResult.coverage_pct r2val = 100) :=
  C1_coverage_amended dist0 10 T2 "pharmacies" r2val analyze_T2

lemma centroid_T4 : centroid T4.rows = ((0 : ℚ), (1/2 : ℚ)) := by
  unfold centroid T4
  norm_num

/-- C1 counterexample: two facilities on the equator one degree of
longitude apart, kind schools (service radius 5 km): both lie about 55 km
from their centroid, so the coverage percentage is 0 while the facility
count is 2, refuting "coverage is 0 exactly when the count is 0". -/
theorem C1_counterexample :
    (analyze_amenities haversineKm 10000 T4 "schools").map (fun r => ( r.coverage_pct, r.actual)) =
      some ((0 : ℚ), (2 : ℕ)) ∧ (2 : ℕ) ≠ 0 := by
  refine ⟨?_, by norm_num⟩
  rw [analyze_nonparks haversineKm 10000 T4 "schools" (by decide)]
  have hcc : coveredCount haversineKm (centroid T4.rows) (serviceRadiusOf "schools") T4.rows = 0 := by
    rw [centroid_T4, show serviceRadiusOf "schools" = 5 from rfl]
    show coveredCount haversineKm ((0 : ℚ), (1/2 : ℚ)) 5 T4.rows = 0
    simp only [T4, coveredCount]
    rw [if_neg, if_neg]
    · rw [show ((Facility.mk 0 1 none).latitude, (Facility.mk 0 1 none).longitude) =
          ((0 : ℚ), (1 : ℚ)) from rfl, haversineKm_half_right]
      exact haversine_not_le_5
    · rw [show ((Facility.mk 0 0 none).latitude, (Facility.mk 0 0 none).longitude) =
          ((0 : ℚ), (0 : ℚ)) from rfl, haversineKm_half_left]
      exact haversine_not_le_5
  have hcsc0 : calculate_service_coverage haversineKm T4.rows (centroid T4.rows)
      (serviceRadiusOf "schools") = 0 := by
    unfold calculate_service_coverage
    rw [if_neg (by simp [T4]), hcc]
    norm_num
  simp [hcsc0, show T4.rows.length = 2 from rfl]

/-- C6 counterexample: on the text "12.34°N" with a genuine degree sign,
clean_coordinate returns the invalid sentinel, not 12.34, because the
markup the source strips is the mojibake sequence "¬∞N", not "°N". -/
theorem C6_counterexample :
    clean_coordinate (CoordInput.str "12.34°N") = none ∧
    clean_coordinate (CoordInput.str "12.34°N") ≠ some (1234/100 : ℚ) := by
  have h : clean_coordinate (CoordInput.str "12.34°N") = none := by decide
  exact ⟨h, by rw [h]; simp⟩

/-- C6 (amended): coordinate normalization is the identity on numeric
inputs; the markup it strips is the literal source sequence "¬∞N", so
"12.34¬∞N" normalizes to 12.34 while "invalid" (and "12.34°N" with a true
degree sign) yield the invalid sentinel. -/
theorem C6_normalization_amended :
    (∀ q : ℚ, clean_coordinate (CoordInput.num q) = some q) ∧
    clean_coordinate (CoordInput.str "12.34¬∞N") = some (1234/100 : ℚ) ∧
    clean_coordinate (CoordInput.str "invalid") = none := by
  refine ⟨fun q => rfl, ?_, by decide⟩
  have h1 : clean_coordinate (CoordInput.str "12.34¬∞N") =
      some (((12 : ℕ) : ℚ) + ((34 : ℕ) : ℚ) / (10 : ℚ) ^ (2 : ℕ)) := rfl
  rw [h1]
  simp only [Option.some.injEq]
  norm_num

/-- C7 (amended): every row returned by the schema mapper has two numeric
coordinates obtained by successful normalization of some uploaded row
(rows whose coordinates fail to normalize are dropped and never reach the
analyzer); no geographic-range check is performed. -/
theorem C7_rows_from_clean (df : UploadedTable) (facility_type : String) (T : CleanTable)
    (f : Facility) (h : standardize_facility_data df facility_type = Except.ok T)
    (hf : f ∈ T.rows) :
    ∃ raw ∈ df.rows, clean_coordinate raw.latRaw = some ( f.latitude) ∧
      clean_coordinate raw.lonRaw = some ( f.longitude) := by
  simp only [standardize_facility_data] at h
  split_ifs at h
  obtain rfl := Except.ok.inj h
  simp only [List.mem_filterMap] at hf
  obtain ⟨raw, hraw, hcr⟩ := hf
  refine ⟨raw, hraw, ?_⟩
  unfold cleanRow at hcr
  cases hla : clean_coordinate raw.latRaw with
  | none => rw [hla] at hcr; simp at hcr
  | some la =>
    cases hlo : clean_coordinate raw.lonRaw with
    | none => rw [hla, hlo] at hcr; simp at hcr
    | some lo =>
      rw [hla, hlo] at hcr
      obtain rfl := Option.some.inj hcr
      exact ⟨by simpa using hla, by simpa using hlo⟩

def df5 : UploadedTable :=
  { headers := ["Latitude", "Longitude"],
    rows := [{ latRaw := CoordInput.num 13, lonRaw := CoordInput.num 77, areaRaw := none },
             { latRaw := CoordInput.nan, lonRaw := CoordInput.num 70, areaRaw := none }] }

def T5 : CleanTable :=
  { rows := [{ latitude := 13, longitude := 77, area_sqm := none }], hasAreaColumn := false }

def f5 : Facility := { latitude := 13, longitude := 77, area_sqm := none }

/-- Witness for C7: a concrete upload with one parseable and one
unparseable row. -/
theorem C7_witness :
    ∃ raw ∈ df5.rows, clean_coordinate raw.latRaw = some (Facility.latitude f5) ∧
      clean_coordinate raw.lonRaw = some (Facility.longitude f5) :=
  C7_rows_from_clean df5 "schools" T5 f5 rfl (by simp [T5, f5])

def df6 : UploadedTable :=
  { headers := ["Latitude", "Longitude"],
    rows := [{ latRaw := CoordInput.num 200, lonRaw := CoordInput.num 0, areaRaw := none }] }

/-- C7 counterexample: a row with latitude 200 survives the schema mapper
unchanged, so the mapper does not guarantee coordinates in valid
geographic ranges (latitude within [-90, 90]). -/
theorem C7_counterexample :
    standardize_facility_data df6 "schools" =
      Except.ok { rows := [{ latitude := 200, longitude := 0, area_sqm := none }],
                  hasAreaColumn := false } ∧
    ¬ ((200 : ℚ) ≤ 90) :=
  ⟨rfl, by norm_num⟩

/-- C9: when the mapped headers contain no latitude or longitude column
the run aborts with an error message and no AnalysisResult; when mapping
succeeds but no rows survive cleaning the run aborts with a distinct
warning message and no AnalysisResult. -/
theorem C9_error_paths (dist : ℚ × ℚ → ℚ × ℚ → ℝ) (population : ℕ) (df : UploadedTable)
    (facility_type : String) :
    (("latitude" ∉ df.headers.map renameColumn ∨ "longitude" ∉ df.headers.map renameColumn) →
      ∃ m, standardize_facility_data df facility_type = Except.error m ∧
        run dist population df facility_type =
          RunResult.errorMsg ("Error processing data: " ++ m)) ∧
    (∀ T, standardize_facility_data df facility_type = Except.ok T → T.rows = [] →
      run dist population df facility_type =
        RunResult.warningMsg "No valid facility locations found in the uploaded file.") ∧
    ("Error processing data: " ++ "KeyError: latitude" ≠
      "No valid facility locations found in the uploaded file.") ∧
    (∀ m a, RunResult.errorMsg m ≠ RunResult.success a) ∧
    (∀ m a, RunResult.warningMsg m ≠ RunResult.success a) := by
  refine ⟨?_, ?_, by decide, fun m a => by simp, fun m a => by simp⟩
  · intro hmiss
    by_cases hlat : "latitude" ∉ df.headers.map renameColumn
    · have hs : standardize_facility_data df facility_type = Except.error "KeyError: latitude" := by
        simp only [standardize_facility_data]
        rw [if_pos hlat]
      refine ⟨"KeyError: latitude", hs, ?_⟩
      unfold run
      rw [hs]
    · have hlon : "longitude" ∉ df.headers.map renameColumn := hmiss.resolve_left hlat
      have hs : standardize_facility_data df facility_type = Except.error "KeyError: longitude" := by
        simp only [standardize_facility_data]
        rw [if_neg hlat, if_pos hlon]
      refine ⟨"KeyError: longitude", hs, ?_⟩
      unfold run
      rw [hs]
  · intro T hT hrows
    unfold run
    rw [hT]
    simp [hrows]

def df7 : UploadedTable := { headers := ["Name"], rows := [] }

/-- Witness for C9 at a concrete upload lacking coordinate columns. -/
theorem C9_witness :
    (("latitude" ∉ df7.headers.map renameColumn ∨ "longitude" ∉ df7.headers.map renameColumn) →
      ∃ m, standardize_facility_data df7 "schools" = Except.error m ∧
        run dist0 5 df7 "schools" = RunResult.errorMsg ("Error processing data: " ++ m)) ∧
    (∀ T, standardize_facility_data df7 "schools" = Except.ok T → T.rows = [] →
      run dist0 5 df7 "schools" =
        RunResult.warningMsg "No valid facility locations found in the uploaded file.") ∧
    ("Error processing data: " ++ "KeyError: latitude" ≠
      "No valid facility locations found in the uploaded file.") ∧
    (∀ m a, RunResult.errorMsg m ≠ RunResult.success a) ∧
    (∀ m a, RunResult.warningMsg m ≠ RunResult.success a) :=
  C9_error_paths dist0 5 df7 "schools"
